import Mathlib

/-!
Shallow embedding of the `iframe-postmessage` library core:
the wire validator (`sanitizeMessage`), the correlation-id generator
(`generateMessageId`), the session registry (`registerInstance`,
`unregisterInstance`, `cleanupOrphanedInstances`, `getInstanceInfo`),
the host-side session API (`ParentAPIImplementation.handleMessage`,
`get`'s `transact` listener), the host handshake reply listener
(`BridgeParent.sendHandshake`'s `reply`), and the child side
(`ChildAPIImplementation.handleMessage`, `BridgeModel`'s pre-handshake
interception filter and handshake listener `shake`).

Windows (channel endpoints) are modelled as natural-number identities.
JavaScript values that can travel in a message are modelled by the
inductive `Val`; absence of an object field is `Option.none`, and
JavaScript truthiness of the optional `uid` / `property` fields is made
explicit (`0` and `""` are falsy).  Effects (posted messages, invoked
callbacks, removed DOM nodes) are returned as explicit data instead of
being performed.
-/

namespace IframeBridge

/-- Constant `MESSAGE_TYPE` from src/constants.ts: the protocol tag. -/
def MESSAGE_TYPE : String := "application/x-iframe-postmessage-v1+json"

/-- Constant `MAX_HANDSHAKE_ATTEMPTS` from src/constants.ts. -/
def MAX_HANDSHAKE_ATTEMPTS : Nat := 10

/-- Constant `HANDSHAKE_INTERVAL_MS` from src/constants.ts. -/
def HANDSHAKE_INTERVAL_MS : Nat := 500

/-- Constant `HANDSHAKE_TIMEOUT_MS` from src/constants.ts. -/
def HANDSHAKE_TIMEOUT_MS : Nat := 10000

/-- Constant `MESSAGE_QUEUE_REPLAY_DELAY_MS` from src/constants.ts. -/
def MESSAGE_QUEUE_REPLAY_DELAY_MS : Nat := 50

/-- A serializable JavaScript value as it appears in message fields.
`vObj name data` models the `{name?, data}` envelope shape used by
`emit`; reading `.name` off any other value yields `undefined`.
`vRef tag` is an opaque reference to an object the wire protocol never
inspects further (a fresh `{}`, the receiver, `Object.prototype`). -/
inductive Val where
  | vUndefined : Val
  | vStr : String → Val
  | vNat : Nat → Val
  | vBool : Bool → Val
  | vRef : String → Val
  | vObj : Option String → Val → Val
deriving DecidableEq, Repr

/-- Reading `.name` off a value, as `message.value?.name` does:
defined only on object values, `undefined` (here `none`) otherwise. -/
def Val.objName : Val → Option String
  | .vObj n _ => n
  | _ => none

/-- Reading `.data` off a value, as `message.value?.data` does. -/
def Val.objData : Val → Val
  | .vObj _ d => d
  | _ => .vUndefined

/-- An entry of a model object: plain data, a callable whose
invocation returns `ret` (callables supplied by the user are opaque to
the library; only their return value is observable), or a callable
whose invocation throws synchronously when called with the arguments
this protocol can supply. -/
inductive ModelEntry where
  | data : Val → ModelEntry
  | func : Val → ModelEntry
  | throwsOnCall : ModelEntry
deriving DecidableEq, Repr

/-- A model layer: a mapping of names to entries. -/
abbrev Model := List (String × ModelEntry)

/-- Own-property lookup in one model layer. -/
def modelLookup (m : Model) (p : String) : Option ModelEntry :=
  (m.find? (fun q => q.1 == p)).map (·.2)

/-- The members every plain object inherits from `Object.prototype`,
with the result each yields for the receivers and arguments this
protocol can produce: `constructor()` builds a fresh empty object,
`toString()`/`toLocaleString()` yield `"[object Object]"`, `valueOf()`
returns the receiver, the three predicate methods coerce their absent
argument to the key `"undefined"` and yield `false` (for receivers
without such an own key), the two `__lookup*__` methods yield
`undefined`, the two `__define*__` methods throw because the protocol
can never hand them a function argument, and `__proto__` is a
non-callable reference to `Object.prototype` itself. -/
def objectPrototype : Model :=
  [("constructor", .func (.vRef "new Object")),
   ("toString", .func (.vStr "[object Object]")),
   ("toLocaleString", .func (.vStr "[object Object]")),
   ("valueOf", .func (.vRef "receiver")),
   ("hasOwnProperty", .func (.vBool false)),
   ("isPrototypeOf", .func (.vBool false)),
   ("propertyIsEnumerable", .func (.vBool false)),
   ("__defineGetter__", .throwsOnCall),
   ("__defineSetter__", .throwsOnCall),
   ("__lookupGetter__", .func .vUndefined),
   ("__lookupSetter__", .func .vUndefined),
   ("__proto__", .data (.vRef "Object.prototype"))]

/-- The inherited property names of a plain object, as tested by the
JavaScript `in` operator beyond the own keys. -/
def objectProtoKeys : List String :=
  objectPrototype.map Prod.fst

/-- JavaScript property lookup `model[p]` on a plain-object model: the
own key when present, else the member inherited from
`Object.prototype`; `none` exactly when `p in model` is false. -/
def jsLookup (m : Model) (p : String) : Option ModelEntry :=
  match modelLookup m p with
  | some entry => some entry
  | none => modelLookup objectPrototype p

/-- The structured record carried by a protocol message
(interface `BridgeMessage` in src/types.ts).  Every field is optional:
`none` models an absent field. -/
structure RawMessage where
  bridge : Option String
  type : Option String
  property : Option String
  data : Option Val
  value : Option Val
  uid : Option Nat
  model : Option Model
deriving DecidableEq, Repr

/-- `RawMessage` with every field absent, for building messages. -/
def RawMessage.empty : RawMessage :=
  { bridge := none, type := none, property := none, data := none,
    value := none, uid := none, model := none }

/-- The `data` slot of a `MessageEvent`: a falsy value, a truthy
non-record value, or a structured record (whose `bridge` field may
itself be absent: `'bridge' in e.data` is `m.bridge.isSome`). -/
inductive EventData where
  | falsy : EventData
  | nonObject : EventData
  | obj : RawMessage → EventData
deriving DecidableEq, Repr

/-- A channel `MessageEvent`: sender origin, sender window identity
(`none` models a null `e.source`), and the raw data. -/
structure MessageEvent where
  origin : String
  source : Option Nat
  data : EventData
deriving DecidableEq, Repr

/-- The list `validTypes` in `sanitizeMessage` (src/utils.ts). -/
def validBridgeTypes : List String :=
  ["handshake", "handshake-reply", "call", "emit", "reply", "request"]

/-- The record checks of `sanitizeMessage` after the origin filter:
data present and truthy, a record, carrying a `bridge` field, a `type`
equal to `MESSAGE_TYPE`, and a recognized `bridge` value.  The source
checks `'bridge' in e.data` before `type`, then membership in
`validTypes`. -/
def sanitizeData : EventData → Bool
  | .falsy => false
  | .nonObject => false
  | .obj m =>
    match m.bridge with
    | none => false
    | some b =>
      if m.type = some MESSAGE_TYPE then validBridgeTypes.contains b
      else false

/-- `sanitizeMessage` (src/utils.ts, the Wire Validator): `allowedOrigin
= some o` is the string filter, `none` is the literal `false` argument
("accept any origin"). -/
def sanitizeMessage (e : MessageEvent) (allowedOrigin : Option String) : Bool :=
  match allowedOrigin with
  | some o => if e.origin ≠ o then false else sanitizeData e.data
  | none => sanitizeData e.data

/-- The `bridge` field of an event's data, `none` when the data is not
a record or the field is absent. -/
def EventData.bridgeOf : EventData → Option String
  | .obj m => m.bridge
  | _ => none

/-- JavaScript truthiness of an optional number field (`undefined` and
`0` are falsy). -/
def truthyNat : Option Nat → Bool
  | none => false
  | some n => n != 0

/-- JavaScript truthiness of an optional string field (`undefined` and
`""` are falsy). -/
def truthyStr : Option String → Bool
  | none => false
  | some s => s != ""

/-- `generateMessageId` (src/utils.ts): the module-level
`messageIdCounter` is passed explicitly; returns the new counter and
the issued id (`messageIdCounter += 1; return messageIdCounter`). -/
def generateMessageId (counter : Nat) : Nat × Nat :=
  (counter + 1, counter + 1)

/-- `resolveValue` (src/utils.ts): look the property up in the model
(the lookup walks the prototype chain, as `model[property]` does),
invoke it when callable, return it as-is otherwise; a name absent from
the whole chain resolves to `undefined`.  `none` models the callable
throwing synchronously, which escapes `resolveValue` before
`Promise.resolve` wraps the result. -/
def resolveValue (model : Model) (property : String) : Option Val :=
  match jsLookup model property with
  | none => some .vUndefined
  | some (.data v) => some v
  | some (.func r) => some r
  | some .throwsOnCall => none

/-- How probing a container handle behaves: `isConnected` reads `true`,
reads `false`, or the access itself throws (a handle from a torn-down
realm). -/
inductive ConnProbe where
  | connected : ConnProbe
  | disconnected : ConnProbe
  | unprobeable : ConnProbe
deriving DecidableEq, Repr

/-- A container (iframe) handle: whether it currently has a parent DOM
node, and how its `isConnected` probe behaves. -/
structure FrameHandle where
  hasParentNode : Bool
  conn : ConnProbe
deriving DecidableEq, Repr

/-- `BridgeInstanceInfo` (src/types.ts): session metadata kept in the
registry.  `frame = none` models the `frame: null` stored by the child
side. -/
structure BridgeInstanceInfo where
  childOrigin : String
  parentOrigin : Option String
  frame : Option FrameHandle
deriving DecidableEq, Repr

/-- The `activeInstances` map (src/registry.ts), modelled as an
association list keyed by window identity. -/
abbrev Registry := List (Nat × BridgeInstanceInfo)

/-- `activeInstances.get`, as an association-list lookup. -/
def lookupInstance (reg : Registry) (w : Nat) : Option BridgeInstanceInfo :=
  (reg.find? (fun p => p.1 == w)).map (·.2)

/-- Number of registry entries held for a given window identity. -/
def countKey (reg : Registry) (w : Nat) : Nat :=
  reg.countP (fun p => p.1 == w)

/-- `registerInstance` (src/registry.ts): when an entry already exists
for the window and its frame has a parent node, `removeChild` detaches
that frame (returned as the Boolean teardown flag); then
`activeInstances.set` stores the new info — replacing the existing
entry in place, appending otherwise. -/
def registerInstance (reg : Registry) (w : Nat) (info : BridgeInstanceInfo) :
    Registry × Bool :=
  let teardown :=
    match lookupInstance reg w with
    | some old =>
      match old.frame with
      | some f => f.hasParentNode
      | none => false
    | none => false
  let reg' :=
    if reg.any (fun p => p.1 == w) then
      reg.map (fun p => if p.1 == w then (w, info) else p)
    else reg ++ [(w, info)]
  (reg', teardown)

/-- `unregisterInstance` (src/registry.ts): delete the entry when
present; idempotent. -/
def unregisterInstance (reg : Registry) (w : Nat) : Registry :=
  reg.filter (fun p => p.1 != w)

/-- Whether the periodic sweep keeps an entry: kept when the frame is
absent (`info.frame` falsy short-circuits the probe), or present,
probeable and connected; removed when the probe reads `false`
(`!info.frame.isConnected`) or throws (the `catch` branch calls
`unregisterInstance`). -/
def sweepKeeps (info : BridgeInstanceInfo) : Bool :=
  match info.frame with
  | none => true
  | some f =>
    match f.conn with
    | .connected => true
    | .disconnected => false
    | .unprobeable => false

/-- `cleanupOrphanedInstances` (src/registry.ts): one run of the
periodic sweep over the registry. -/
def cleanupOrphanedInstances (reg : Registry) : Registry :=
  reg.filter (fun p => sweepKeeps p.2)

/-- `getInstanceInfo` (src/registry.ts): `undefined` for a null
`e.source`, otherwise the registry entry for the sender window. -/
def getInstanceInfo (reg : Registry) (e : MessageEvent) :
    Option BridgeInstanceInfo :=
  match e.source with
  | none => none
  | some w => lookupInstance reg w

/-- State of an established host-side session
(`ParentAPIImplementation`, src/parent.ts): the parent window, the
embedded child window and the frame's live `contentWindow` (possibly
null), the verified counterpart origin, and the ordered handler lists
keyed by event name (handlers as opaque identities). -/
structure ParentState where
  parent : Nat
  child : Nat
  frameContentWindow : Option Nat
  childOrigin : String
  events : List (String × List Nat)
deriving DecidableEq, Repr

/-- The sender-identity check `e.source === this.child ||
e.source === this.frame.contentWindow` shared by the host-side
handlers.  A null `e.source` compares equal to a null `contentWindow`,
as `===` does. -/
def isFromOurChild (st : ParentState) (e : MessageEvent) : Bool :=
  e.source == some st.child || e.source == st.frameContentWindow

/-- Observable effects of the host session handler: the (handler
identity, argument) invocations performed in order, and whether the
handler raised an uncaught `TypeError`. -/
structure ParentEffects where
  invoked : List (Nat × Val)
  raised : Bool
deriving DecidableEq, Repr

/-- No observable effect on the host side. -/
def ParentEffects.none : ParentEffects := { invoked := [], raised := false }

/-- `ParentAPIImplementation.handleMessage` (src/parent.ts): gate
through the Validator with the verified child origin, require the
sender to be our child, then on an `emit` message whose envelope name
is truthy invoke every registered handler for that name in order.  The
guard `eventName in this.events` also holds for names the plain
`events` object inherits from `Object.prototype` (e.g. `toString`):
there `this.events[eventName].forEach` is applied to the inherited
member, which is no array, raising a `TypeError`. -/
def ParentState.handleMessage (st : ParentState) (e : MessageEvent) :
    ParentEffects :=
  if !sanitizeMessage e (some st.childOrigin) then ParentEffects.none
  else if !isFromOurChild st e then ParentEffects.none
  else
    match e.data with
    | .obj m =>
      if m.bridge = some "emit" then
        match m.value with
        | some v =>
          match v.objName with
          | some nm =>
            if nm ≠ "" then
              match (st.events.find? (fun q => q.1 == nm)).map (·.2) with
              | some hs =>
                { invoked := hs.map (fun h => (h, v.objData)),
                  raised := false }
              | none =>
                if objectProtoKeys.contains nm then
                  { invoked := [], raised := true }
                else ParentEffects.none
            else ParentEffects.none
          | none => ParentEffects.none
        | none => ParentEffects.none
      else ParentEffects.none
    | _ => ParentEffects.none

/-- The `transact` listener installed by
`ParentAPIImplementation.get` (src/parent.ts) for one pending request
with correlation id `uid`: Validator with the verified child origin,
sender must be our child, and the message must be a `reply` bearing
exactly `uid`; then the future resolves with `message.value`
(`some (resolution)`).  `none` means the listener ignored the event and
the future stays pending. -/
def transact (st : ParentState) (uid : Nat) (e : MessageEvent) :
    Option (Option Val) :=
  if !sanitizeMessage e (some st.childOrigin) then none
  else if !isFromOurChild st e then none
  else
    match e.data with
    | .obj m =>
      if m.uid = some uid ∧ m.bridge = some "reply" then some m.value
      else none
    | _ => none

/-- A pending `get` future consuming a stream of inbound events: once
resolved the listener is removed (`removeEventListener` inside
`transact`), so later events no longer change the outcome. -/
def runGet (st : ParentState) (uid : Nat) (events : List MessageEvent) :
    Option (Option Val) :=
  events.foldl
    (fun acc e =>
      match acc with
      | some v => some v
      | none => transact st uid e)
    none

/-- State of a host handshake in its offering phase (`BridgeParent`,
src/parent.ts): the parent window, the embedded child window captured
at construction, the frame's live `contentWindow` and whether the
frame is attached to a parent DOM node, the expected child origin
resolved from the config URL, the host's own origin
(`window.location.origin`), and the number of offer attempts already
sent. -/
structure ParentHSState where
  parent : Nat
  child : Nat
  frameContentWindow : Option Nat
  frameHasParentNode : Bool
  frame : FrameHandle
  childOrigin : String
  selfOrigin : String
  attempt : Nat
deriving DecidableEq, Repr

/-- Outcome of the host handshake `reply` listener on one event. -/
inductive ReplyOutcome where
  | ignored : ReplyOutcome
  | resolved : ReplyOutcome
  | rejected : ReplyOutcome
deriving DecidableEq, Repr

/-- Side effects of one `reply` listener step: whether the retry
interval and timeout were cancelled, the listener removed, and the
embedded frame removed from its parent node. -/
structure HSEffects where
  timersCancelled : Bool
  listenerRemoved : Bool
  frameRemoved : Bool
deriving DecidableEq, Repr

/-- No side effects (the listener returned early). -/
def HSEffects.none : HSEffects :=
  { timersCancelled := false, listenerRemoved := false, frameRemoved := false }

/-- The sender-identity check of the host handshake `reply` listener:
our child window, or a sender registered in `activeInstances` whose
recorded `childOrigin` equals the expected child origin. -/
def replySenderOk (reg : Registry) (st : ParentHSState) (e : MessageEvent) :
    Bool :=
  let isFromOurChild :=
    e.source == some st.child || e.source == st.frameContentWindow
  let isFromRegisteredChild :=
    match getInstanceInfo reg e with
    | some info => info.childOrigin == st.childOrigin
    | none => false
  isFromOurChild || isFromRegisteredChild

/-- The `reply` listener of `BridgeParent.sendHandshake`
(src/parent.ts): Validator with the `false` ("any origin") filter,
sender-identity check, then: a `handshake-reply` resolves — cancelling
timers, removing the listener, recording `e.origin` as the verified
child origin and re-registering the child in the registry; any other
valid message triggers `cleanup` (cancel timers, remove listener,
`unregisterInstance(this.child)`, remove the frame if attached) and
rejects with `Failed handshake`.  Returns the outcome, the registry
after the step, and the effects.  The step never reads `st.attempt`:
the decision does not depend on the remaining retry budget. -/
def replyStep (reg : Registry) (st : ParentHSState) (e : MessageEvent) :
    ReplyOutcome × Registry × HSEffects :=
  if !sanitizeMessage e none then (.ignored, reg, HSEffects.none)
  else if !replySenderOk reg st e then (.ignored, reg, HSEffects.none)
  else if e.data.bridgeOf = some "handshake-reply" then
    let reg₁ :=
      match lookupInstance reg st.child with
      | some _ => unregisterInstance reg st.child
      | none => reg
    let reg₂ :=
      (registerInstance reg₁ st.child
        { childOrigin := e.origin, parentOrigin := some st.selfOrigin,
          frame := some st.frame }).1
    (.resolved, reg₂,
      { timersCancelled := true, listenerRemoved := true,
        frameRemoved := false })
  else
    (.rejected, unregisterInstance reg st.child,
      { timersCancelled := true, listenerRemoved := true,
        frameRemoved := st.frameHasParentNode })

/-- A message posted via `postMessage`: target window, the record, and
the target origin passed as second argument. -/
structure SentMsg where
  target : Nat
  message : RawMessage
  targetOrigin : String
deriving DecidableEq, Repr

/-- Observable effects of the established child session's message
handler: model callables invoked (name and the `data` argument, with
`undefined` for an absent field), messages posted back, and whether an
uncaught exception escaped the handler. -/
structure ChildEffects where
  invoked : List (String × Val)
  sent : List SentMsg
  raised : Bool
deriving DecidableEq, Repr

/-- No observable effect. -/
def ChildEffects.none : ChildEffects :=
  { invoked := [], sent := [], raised := false }

/-- State of an established child-side session
(`ChildAPIImplementation`, src/child.ts): the local model, the parent
window, the verified parent origin, and the child's own window. -/
structure ChildState where
  model : Model
  parent : Nat
  parentOrigin : String
  child : Nat
deriving DecidableEq, Repr

/-- `ChildAPIImplementation.handleMessage` (src/child.ts): gate
through the Validator with the verified parent origin; on `call`,
invoke the named entry only when the property is truthy and
`property in this.model` finds a callable — an own entry or one
inherited from `Object.prototype` (a throwing callable raises out of
the handler); on `request` with truthy `uid` and `property`, resolve
the value through the same prototype-walking lookup — a name absent
from the whole chain resolves to `undefined`, a throwing callable
raises before any reply — and post a `reply` bearing the same `uid`
back to `e.source` at `e.origin`, unless `e.source` is null. -/
def ChildState.handleMessage (st : ChildState) (e : MessageEvent) :
    ChildEffects :=
  if !sanitizeMessage e (some st.parentOrigin) then ChildEffects.none
  else
    match e.data with
    | .obj m =>
      let callEffects : List (String × Val) × Bool :=
        if m.bridge = some "call" then
          match m.property with
          | some p =>
            if truthyStr (some p) then
              match jsLookup st.model p with
              | some (.func _) => ([(p, m.data.getD .vUndefined)], false)
              | some .throwsOnCall => ([], true)
              | _ => ([], false)
            else ([], false)
          | none => ([], false)
        else ([], false)
      let requestEffects : List SentMsg × Bool :=
        if m.bridge = some "request" ∧ truthyNat m.uid ∧
            truthyStr m.property then
          match resolveValue st.model (m.property.getD "") with
          | some v =>
            match e.source with
            | some s =>
              ([{ target := s,
                  message :=
                    { RawMessage.empty with
                      bridge := some "reply", type := some MESSAGE_TYPE,
                      uid := m.uid, value := some v },
                  targetOrigin := e.origin }], false)
            | none => ([], false)
          | none => ([], true)
        else ([], false)
      { invoked := callEffects.1, sent := requestEffects.1,
        raised := callEffects.2 || requestEffects.2 }
    | _ => ChildEffects.none

/-- One message buffered by the pre-handshake interception filter
(`QueuedMessage`, src/types.ts). -/
structure QueuedMessage where
  message : RawMessage
  origin : String
  source : Option Nat
  uid : Option Nat
deriving DecidableEq, Repr

/-- State of a `BridgeModel` before its handshake completes
(src/child.ts): the child's own window, its parent window (captured as
`this.parent`; `windowParent` is the live `window.parent` read at
event time), the parent origin once known, the handshake flag, and the
buffered queue. -/
structure BridgeModelState where
  child : Nat
  parent : Nat
  windowParent : Nat
  parentOrigin : Option String
  handshakeComplete : Bool
  messageQueue : List QueuedMessage
deriving DecidableEq, Repr

/-- Whether two raw messages agree on the deduplication tuple
(kind, property, correlationId) used by the interception filter. -/
def sameTuple (a b : RawMessage) : Bool :=
  a.bridge == b.bridge && a.property == b.property && a.uid == b.uid

/-- The capturing interception filter installed by
`BridgeModel.startMessageInterception` (src/child.ts): structural
check (`e.data` truthy, an object, carrying a `bridge` field), pass
through once the handshake is complete and for `handshake` messages;
for a `call` or `request` whose sender passes the origin check (any
origin while `parentOrigin` is unknown) and the window check, buffer it
unless an entry with the same (kind, property, uid) tuple is already
queued, and suppress further delivery (`stopImmediatePropagation`).
Returns the new state and whether delivery was suppressed. -/
def interceptStep (st : BridgeModelState) (e : MessageEvent) :
    BridgeModelState × Bool :=
  match e.data with
  | .obj m =>
    if m.bridge.isNone then (st, false)
    else if st.handshakeComplete then (st, false)
    else if m.bridge = some "handshake" then (st, false)
    else
      let isFromParent := st.parentOrigin.isNone ||
        st.parentOrigin == some e.origin
      let isFromParentWindow := e.source == some st.parent ||
        e.source == some st.windowParent
      if isFromParent && isFromParentWindow then
        if m.bridge = some "call" ∨ m.bridge = some "request" then
          let isDuplicate := st.messageQueue.any
            (fun q => sameTuple q.message m)
          if isDuplicate then (st, true)
          else
            ({ st with messageQueue := st.messageQueue ++
                [{ message := m, origin := e.origin, source := e.source,
                   uid := m.uid }] }, true)
        else (st, false)
      else (st, false)
  | _ => (st, false)

/-- `BridgeModel.replayQueuedMessages` (src/child.ts): after the replay
delay, every buffered message is re-dispatched onto the channel as a
fresh `MessageEvent` with its original data, origin and source; the
queue is then cleared. -/
def replayQueuedMessages (queue : List QueuedMessage) : List MessageEvent :=
  queue.map (fun q => { origin := q.origin, source := q.source,
                        data := .obj q.message })

/-- The guard of the `shake` handshake listener in
`BridgeModel.sendHandshakeReply` (src/child.ts): it acts on an event —
replying with a `handshake-reply`, recording the origin, merging the
model and establishing the session — exactly when the data is a record
carrying a `bridge` field, `message.bridge === 'handshake'`, and the
sender is the parent window.  No Validator call and no `type` check
occurs on this path. -/
def shakeAccepts (st : BridgeModelState) (e : MessageEvent) : Bool :=
  match e.data with
  | .obj m =>
    m.bridge.isSome &&
      (m.bridge == some "handshake" &&
        (e.source == some st.parent || e.source == some st.windowParent))
  | _ => false

/-! Helper lemmas shared by the claim theorems. -/

/-- A message whose sender origin differs from the supplied filter is
rejected by the Validator. -/
theorem sanitize_origin_mismatch (e : MessageEvent) (o : String)
    (h : e.origin ≠ o) : sanitizeMessage e (some o) = false := by
  simp [sanitizeMessage, h]

/-- The parent session handler does nothing on a Validator-rejected
message. -/
theorem parent_handleMessage_gated (st : ParentState) (e : MessageEvent)
    (h : sanitizeMessage e (some st.childOrigin) = false) :
    st.handleMessage e = ParentEffects.none := by
  simp [ParentState.handleMessage, h]

/-- The pending-get listener ignores a Validator-rejected message. -/
theorem transact_gated (st : ParentState) (uid : Nat) (e : MessageEvent)
    (h : sanitizeMessage e (some st.childOrigin) = false) :
    transact st uid e = none := by
  simp [transact, h]

/-- The established child handler does nothing on a Validator-rejected
message. -/
theorem child_handleMessage_gated (st : ChildState) (e : MessageEvent)
    (h : sanitizeMessage e (some st.parentOrigin) = false) :
    st.handleMessage e = ChildEffects.none := by
  simp [ChildState.handleMessage, h]

/-- C1: a message whose sender origin differs from the session's
verified counterpart origin changes no Session API observable state:
the host handler invokes no registered event handler, a pending `get`
future is not resolved (by the single event nor within a stream
consisting of it), and the child handler invokes no model entry and
sends no reply. -/
theorem origin_isolation (pst : ParentState) (uid : Nat) (cst : ChildState)
    (e e' : MessageEvent)
    (hp : e.origin ≠ pst.childOrigin)
    (hc : e'.origin ≠ cst.parentOrigin) :
    pst.handleMessage e = ParentEffects.none ∧ transact pst uid e = none ∧
      cst.handleMessage e' = ChildEffects.none := by
  have hps := sanitize_origin_mismatch e pst.childOrigin hp
  have hcs := sanitize_origin_mismatch e' cst.parentOrigin hc
  exact ⟨parent_handleMessage_gated pst e hps,
    transact_gated pst uid e hps,
    child_handleMessage_gated cst e' hcs⟩

/-! Concrete fixtures used by the witnesses. -/

/-- A host-side session fixture with one registered handler. -/
def pstW : ParentState :=
  { parent := 0, child := 1, frameContentWindow := some 1,
    childOrigin := "https://child.example", events := [("tick", [7])] }

/-- A child-side session fixture with one data and one callable entry. -/
def cstW : ChildState :=
  { model := [("answer", .data (.vNat 42)), ("work", .func (.vStr "done"))],
    parent := 0, parentOrigin := "https://parent.example", child := 1 }

/-- A well-formed `emit` event sent from a wrong origin. -/
def evilEmit : MessageEvent :=
  { origin := "https://evil.example", source := some 1,
    data := .obj { RawMessage.empty with
      bridge := some "emit", type := some MESSAGE_TYPE,
      value := some (.vObj (some "tick") (.vNat 3)) } }

/-- A well-formed `request` event sent from a wrong origin. -/
def evilRequest : MessageEvent :=
  { origin := "https://evil.example", source := some 0,
    data := .obj { RawMessage.empty with
      bridge := some "request", type := some MESSAGE_TYPE,
      property := some "answer", uid := some 5 } }

/-- Witness for C1 at concrete inputs. -/
theorem origin_isolation_witness :
    pstW.handleMessage evilEmit = ParentEffects.none ∧ transact pstW 5 evilEmit = none ∧
      cstW.handleMessage evilRequest = ChildEffects.none :=
  origin_isolation pstW 5 cstW evilEmit evilRequest
    (by decide) (by decide)

/-- The host handshake reply listener ignores a Validator-rejected
message, leaving registry and effects untouched. -/
theorem replyStep_gated (reg : Registry) (st : ParentHSState)
    (e : MessageEvent) (h : sanitizeMessage e none = false) :
    replyStep reg st e = (.ignored, reg, HSEffects.none) := by
  simp [replyStep, h]

/-- The child handshake listener and the interception filter ignore
events whose data is not a structured record carrying a kind field. -/
theorem shake_intercept_structural (st : BridgeModelState)
    (e : MessageEvent) (h : e.data.bridgeOf = none) :
    shakeAccepts st e = false ∧ interceptStep st e = (st, false) := by
  constructor
  · cases hd : e.data with
    | falsy => simp [shakeAccepts, hd]
    | nonObject => simp [shakeAccepts, hd]
    | obj m =>
      have hb : m.bridge = none := by
        simpa [EventData.bridgeOf, hd] using h
      simp [shakeAccepts, hd, hb]
  · cases hd : e.data with
    | falsy => simp [interceptStep, hd]
    | nonObject => simp [interceptStep, hd]
    | obj m =>
      have hb : m.bridge = none := by
        simpa [EventData.bridgeOf, hd] using h
      simp [interceptStep, hd, hb]

/-- A pre-handshake `BridgeModel` fixture. -/
def mstW : BridgeModelState :=
  { child := 1, parent := 0, windowParent := 0, parentOrigin := none,
    handshakeComplete := false, messageQueue := [] }

/-- A `handshake` record lacking the protocol tag, sent by the parent
window: the Validator rejects it, yet the child handshake listener
accepts it. -/
def untaggedOffer : MessageEvent :=
  { origin := "https://parent.example", source := some 0,
    data := .obj { RawMessage.empty with bridge := some "handshake" } }

/-- A `call` record lacking the protocol tag, sent by the parent
window: the Validator rejects it, yet the interception filter buffers
and suppresses it. -/
def untaggedCall : MessageEvent :=
  { origin := "https://parent.example", source := some 0,
    data := .obj { RawMessage.empty with
      bridge := some "call", property := some "work" } }

/-- Counterexample to C2: the child handshake listener acts on a
message the Validator rejects under every origin filter (its
`protocolTag` is absent), and the pre-handshake interception filter
buffers and suppresses another such message. -/
theorem wire_gate_counterexample :
    shakeAccepts mstW untaggedOffer = true ∧
      sanitizeData untaggedOffer.data = false ∧
      (interceptStep mstW untaggedCall).2 = true ∧
      sanitizeData untaggedCall.data = false := by
  decide

/-- C2 (amended): the host-side handlers (established-session handler,
pending-get listener, handshake reply listener) and the established
child session handler act on no message the Validator rejects; the
child handshake listener and the pre-handshake interception filter
apply only the structural part of the gate — they ignore any event
whose data is not a structured record carrying a kind field, but do
act on records the full Validator would reject. -/
theorem wire_gate_amended :
    (∀ (pst : ParentState) (e : MessageEvent),
        sanitizeMessage e (some pst.childOrigin) = false →
        pst.handleMessage e = ParentEffects.none) ∧
    (∀ (pst : ParentState) (uid : Nat) (e : MessageEvent),
        sanitizeMessage e (some pst.childOrigin) = false →
        transact pst uid e = none) ∧
    (∀ (reg : Registry) (hst : ParentHSState) (e : MessageEvent),
        sanitizeMessage e none = false →
        replyStep reg hst e = (.ignored, reg, HSEffects.none)) ∧
    (∀ (cst : ChildState) (e : MessageEvent),
        sanitizeMessage e (some cst.parentOrigin) = false →
        cst.handleMessage e = ChildEffects.none) ∧
    (∀ (mst : BridgeModelState) (e : MessageEvent),
        e.data.bridgeOf = none →
        shakeAccepts mst e = false ∧ interceptStep mst e = (mst, false)) :=
  ⟨parent_handleMessage_gated, transact_gated, replyStep_gated,
    child_handleMessage_gated, shake_intercept_structural⟩

/-- A host handshake fixture. -/
def hstW : ParentHSState :=
  { parent := 0, child := 1, frameContentWindow := some 1,
    frameHasParentNode := true,
    frame := { hasParentNode := true, conn := .connected },
    childOrigin := "https://child.example",
    selfOrigin := "https://parent.example", attempt := 3 }

/-- An event carrying no structured record at all. -/
def bareEvent : MessageEvent :=
  { origin := "https://parent.example", source := some 0, data := .falsy }

/-- Witness for the amended C2 at concrete inputs. -/
theorem wire_gate_amended_witness :
    pstW.handleMessage evilEmit = ParentEffects.none ∧
      transact pstW 5 evilEmit = none ∧
      replyStep [] hstW bareEvent = (.ignored, [], HSEffects.none) ∧
      cstW.handleMessage evilRequest = ChildEffects.none ∧
      (shakeAccepts mstW bareEvent = false ∧
        interceptStep mstW bareEvent = (mstW, false)) :=
  ⟨wire_gate_amended.1 pstW evilEmit (by decide),
    wire_gate_amended.2.1 pstW 5 evilEmit (by decide),
    wire_gate_amended.2.2.1 [] hstW bareEvent (by decide),
    wire_gate_amended.2.2.2.1 cstW evilRequest (by decide),
    wire_gate_amended.2.2.2.2 mstW bareEvent (by decide)⟩

/-- A pending `get` with correlation id `u` is untouched by any event
that does not carry a record bearing exactly `uid = u`. -/
theorem transact_uid_mismatch (st : ParentState) (u : Nat)
    (e : MessageEvent)
    (h : ∀ mb : RawMessage, e.data = .obj mb → mb.uid ≠ some u) :
    transact st u e = none := by
  unfold transact
  cases hd : e.data with
  | falsy => simp
  | nonObject => simp
  | obj mb =>
    have := h mb hd
    simp [this]

/-- C3: a value-reply from the verified counterpart bearing correlation
id `u` resolves the pending `get` awaiting `u` with the reply's value,
and resolves no future awaiting a different id `u'`; ids issued by the
generator are at least 1 and strictly increase, so distinct `get`s
await distinct ids; and a reply stream in which a non-matching reply
precedes the matching one still resolves the future with the matching
reply's value (Scenario D). -/
theorem correlation_round_trip (st : ParentState) (u u' : Nat)
    (e : MessageEvent) (m : RawMessage)
    (hd : e.data = .obj m)
    (ho : e.origin = st.childOrigin)
    (hs : isFromOurChild st e = true)
    (ht : m.type = some MESSAGE_TYPE)
    (hb : m.bridge = some "reply")
    (hu : m.uid = some u)
    (hne : u' ≠ u) :
    transact st u e = some m.value ∧
      transact st u' e = none ∧
      (∀ c : Nat, 1 ≤ (generateMessageId c).2 ∧
        (generateMessageId c).2 <
          (generateMessageId (generateMessageId c).1).2) ∧
      (∀ ebad : MessageEvent,
        (∀ mb : RawMessage, ebad.data = .obj mb → mb.uid ≠ some u) →
        runGet st u [ebad, e] = some m.value) := by
  have hsan : sanitizeMessage e (some st.childOrigin) = true := by
    simp [sanitizeMessage, ho, sanitizeData, hd, hb, ht, validBridgeTypes,
      MESSAGE_TYPE]
  have hres : transact st u e = some m.value := by
    simp [transact, hsan, hs, hd, hb, hu]
  refine ⟨hres, ?_, ?_, ?_⟩
  · have : m.uid ≠ some u' := by
      rw [hu]
      exact fun hc => hne (by injection hc with h; exact h.symm)
    simp [transact, hsan, hs, hd, this]
  · intro c
    constructor
    · simp [generateMessageId]
    · simp [generateMessageId]
  · intro ebad hbad
    have h0 : transact st u ebad = none := transact_uid_mismatch st u ebad hbad
    simp [runGet, h0, hres]

/-- A matching value-reply from the verified counterpart, awaited under
correlation id 2. -/
def goodReply : MessageEvent :=
  { origin := "https://child.example", source := some 1,
    data := .obj { RawMessage.empty with
      bridge := some "reply", type := some MESSAGE_TYPE,
      uid := some 2, value := some (.vNat 9) } }

/-- A value-reply bearing the non-matching correlation id 3. -/
def staleReply : MessageEvent :=
  { origin := "https://child.example", source := some 1,
    data := .obj { RawMessage.empty with
      bridge := some "reply", type := some MESSAGE_TYPE,
      uid := some 3, value := some (.vNat 8) } }

/-- Witness for C3 at concrete inputs, Scenario D included. -/
theorem correlation_round_trip_witness :
    transact pstW 2 goodReply = some (some (.vNat 9)) ∧
      transact pstW 5 goodReply = none ∧
      runGet pstW 2 [staleReply, goodReply] = some (some (.vNat 9)) := by
  have h := correlation_round_trip pstW 2 5 goodReply
    { RawMessage.empty with
      bridge := some "reply", type := some MESSAGE_TYPE,
      uid := some 2, value := some (.vNat 9) }
    rfl rfl (by decide) rfl rfl rfl (by decide)
  exact ⟨h.1, h.2.1, h.2.2.2 staleReply (by intro mb hmb; cases hmb; decide)⟩

/-- After `unregisterInstance` no entry remains for the window. -/
theorem lookup_unregister (reg : Registry) (w : Nat) :
    lookupInstance (unregisterInstance reg w) w = none := by
  have h : (reg.filter (fun p => p.1 != w)).find? (fun p => p.1 == w)
      = none := by
    apply List.find?_eq_none.2
    intro x hx
    have hx2 := (List.mem_filter.1 hx).2
    simp only [bne_iff_ne, ne_eq] at hx2
    simp [hx2]
  simp [lookupInstance, unregisterInstance, h]

/-- C4: while the host is offering, a Validator-accepted message from
the embedded counterpart whose kind differs from offer-ack makes the
`reply` listener reject at once with the failure teardown: timers
cancelled, listener removed, the counterpart's registry entry removed,
and the frame removed when attached.  The step is independent of the
attempt counter — the rejection does not wait out the remaining retry
budget. -/
theorem offer_phase_protocol_violation (reg : Registry)
    (st : ParentHSState) (e : MessageEvent)
    (hv : sanitizeMessage e none = true)
    (hs : (e.source == some st.child ||
      e.source == st.frameContentWindow) = true)
    (hk : e.data.bridgeOf ≠ some "handshake-reply") :
    replyStep reg st e =
      (.rejected, unregisterInstance reg st.child,
        { timersCancelled := true, listenerRemoved := true,
          frameRemoved := st.frameHasParentNode }) ∧
      lookupInstance (replyStep reg st e).2.1 st.child = none ∧
      (∀ a : Nat, replyStep reg { st with attempt := a } e
        = replyStep reg st e) := by
  have hsender : replySenderOk reg st e = true := by
    simp only [replySenderOk]
    simp only [Bool.or_eq_true] at hs ⊢
    exact Or.inl hs
  have hmain : replyStep reg st e =
      (.rejected, unregisterInstance reg st.child,
        { timersCancelled := true, listenerRemoved := true,
          frameRemoved := st.frameHasParentNode }) := by
    simp [replyStep, hv, hsender, hk]
  refine ⟨hmain, ?_, ?_⟩
  · rw [hmain]
    exact lookup_unregister reg st.child
  · intro a
    cases st
    rfl

/-- A Validator-accepted `call` message arriving from the embedded
child while the host is still offering. -/
def strayCall : MessageEvent :=
  { origin := "https://child.example", source := some 1,
    data := .obj { RawMessage.empty with
      bridge := some "call", type := some MESSAGE_TYPE,
      property := some "work" } }

/-- A registry fixture holding the handshaking child's entry. -/
def regW : Registry :=
  [(1, { childOrigin := "https://child.example",
         parentOrigin := some "https://parent.example",
         frame := some { hasParentNode := true, conn := .connected } })]

/-- Witness for C4 at concrete inputs. -/
theorem offer_phase_protocol_violation_witness :
    replyStep regW hstW strayCall =
      (.rejected, unregisterInstance regW hstW.child,
        { timersCancelled := true, listenerRemoved := true,
          frameRemoved := hstW.frameHasParentNode }) ∧
      lookupInstance (replyStep regW hstW strayCall).2.1 hstW.child
        = none ∧
      (∀ a : Nat, replyStep regW { hstW with attempt := a } strayCall
        = replyStep regW hstW strayCall) :=
  offer_phase_protocol_violation regW hstW strayCall
    (by decide) (by decide) (by decide)

/-- Number of queued entries whose message bears the same
(kind, property, correlationId) tuple as `m`. -/
def countTuple (queue : List QueuedMessage) (m : RawMessage) : Nat :=
  queue.countP (fun qd => sameTuple qd.message m)

/-- Folding the interception filter over a stream of inbound events. -/
def interceptFold (st : BridgeModelState) (es : List MessageEvent) :
    BridgeModelState :=
  es.foldl (fun s e => (interceptStep s e).1) st

/-- An inbound delivery of the tuple of `m` to the pre-handshake
filter: a record sharing `m`'s (kind, property, correlationId), of
kind `call` or `request`, passing the filter's origin and sender
checks as evaluated against the session fields of `st`. -/
def tupleDelivery (st : BridgeModelState) (m : RawMessage)
    (e : MessageEvent) : Prop :=
  ∃ me : RawMessage, e.data = .obj me ∧ sameTuple me m = true ∧
    (me.bridge = some "call" ∨ me.bridge = some "request") ∧
    (st.parentOrigin.isNone || st.parentOrigin == some e.origin) = true ∧
    (e.source == some st.parent || e.source == some st.windowParent) = true

/-- Two messages share the dedup tuple exactly when the three
projections agree. -/
theorem sameTuple_eq_iff (a b : RawMessage) :
    sameTuple a b = true ↔
      (a.bridge = b.bridge ∧ a.property = b.property ∧ a.uid = b.uid) := by
  simp [sameTuple, and_assoc]

/-- The interception filter changes only the message queue. -/
theorem interceptStep_fields (st : BridgeModelState) (e : MessageEvent) :
    ((interceptStep st e).1).parent = st.parent ∧
      ((interceptStep st e).1).windowParent = st.windowParent ∧
      ((interceptStep st e).1).parentOrigin = st.parentOrigin ∧
      ((interceptStep st e).1).handshakeComplete = st.handshakeComplete := by
  unfold interceptStep
  cases e.data with
  | falsy => simp
  | nonObject => simp
  | obj m =>
    simp only
    split_ifs <;> simp

/-- Sharing a tuple makes the dedup predicate agree pointwise. -/
theorem sameTuple_congr (me m x : RawMessage) (h : sameTuple me m = true) :
    sameTuple x me = sameTuple x m := by
  obtain ⟨h1, h2, h3⟩ := (sameTuple_eq_iff me m).1 h
  simp [sameTuple, h1, h2, h3]

/-- Delivering the tuple to a state holding no matching entry buffers
exactly one matching entry. -/
theorem interceptStep_enqueue (st : BridgeModelState) (m : RawMessage)
    (e : MessageEvent)
    (hhs : st.handshakeComplete = false)
    (hdel : tupleDelivery st m e)
    (hq : countTuple st.messageQueue m = 0) :
    countTuple ((interceptStep st e).1).messageQueue m = 1 := by
  obtain ⟨me, hd, htup, hbr, hor, hwin⟩ := hdel
  have hnotshake : ¬ me.bridge = some "handshake" := by
    rcases hbr with h | h <;> simp [h]
  have hsome : me.bridge.isNone = false := by
    rcases hbr with h | h <;> simp [h]
  have hnodup : st.messageQueue.any (fun q => sameTuple q.message me)
      = false := by
    rw [Bool.eq_false_iff]
    intro hany
    obtain ⟨q, hqmem, hqt⟩ := List.any_eq_true.1 hany
    have : countTuple st.messageQueue m ≠ 0 := by
      have hpos : 0 < st.messageQueue.countP
          (fun qd => sameTuple qd.message m) := by
        apply List.countP_pos_iff.2
        exact ⟨q, hqmem, by rw [← sameTuple_congr me m q.message htup]; exact hqt⟩
      exact Nat.pos_iff_ne_zero.1 hpos
    exact this hq
  have : (interceptStep st e).1.messageQueue = st.messageQueue ++
      [{ message := me, origin := e.origin, source := e.source,
         uid := me.uid }] := by
    simp [interceptStep, hd, hsome, hhs, hnotshake, hor, hwin, hbr, hnodup]
  rw [countTuple, this, List.countP_append]
  have hc0 : st.messageQueue.countP (fun qd => sameTuple qd.message m)
      = 0 := hq
  simp [hc0, htup]

/-- Delivering the tuple to a state already holding a matching entry
leaves the queue unchanged. -/
theorem interceptStep_dedup (st : BridgeModelState) (m : RawMessage)
    (e : MessageEvent)
    (hhs : st.handshakeComplete = false)
    (hdel : tupleDelivery st m e)
    (hq : 0 < countTuple st.messageQueue m) :
    ((interceptStep st e).1).messageQueue = st.messageQueue := by
  obtain ⟨me, hd, htup, hbr, hor, hwin⟩ := hdel
  have hnotshake : ¬ me.bridge = some "handshake" := by
    rcases hbr with h | h <;> simp [h]
  have hsome : me.bridge.isNone = false := by
    rcases hbr with h | h <;> simp [h]
  have hdup : st.messageQueue.any (fun q => sameTuple q.message me)
      = true := by
    obtain ⟨q, hqmem, hqt⟩ := List.countP_pos_iff.1 hq
    exact List.any_eq_true.2
      ⟨q, hqmem, by rw [sameTuple_congr me m q.message htup]; exact hqt⟩
  simp [interceptStep, hd, hsome, hhs, hnotshake, hor, hwin, hbr, hdup]

/-- Once one matching entry is buffered, any further deliveries of the
tuple keep the count at exactly one. -/
theorem interceptFold_keeps (st₀ : BridgeModelState) (m : RawMessage)
    (es : List MessageEvent) :
    ∀ s : BridgeModelState,
      s.parent = st₀.parent → s.windowParent = st₀.windowParent →
      s.parentOrigin = st₀.parentOrigin → s.handshakeComplete = false →
      (∀ e ∈ es, tupleDelivery st₀ m e) →
      countTuple s.messageQueue m = 1 →
      countTuple (interceptFold s es).messageQueue m = 1 := by
  induction es with
  | nil =>
    intro s _ _ _ _ _ hq
    simpa [interceptFold] using hq
  | cons e rest ih =>
    intro s hp hw ho hh hall hq
    have hdel : tupleDelivery s m e := by
      obtain ⟨me, h1, h2, h3, h4, h5⟩ := hall e (List.mem_cons_self e rest)
      exact ⟨me, h1, h2, h3, by rw [ho]; exact h4,
        by rw [hp, hw]; exact h5⟩
    have hqe := interceptStep_dedup s m e hh hdel (by omega)
    have hfields := interceptStep_fields s e
    have hstep : interceptFold s (e :: rest)
        = interceptFold (interceptStep s e).1 rest := by
      simp [interceptFold]
    rw [hstep]
    exact ih (interceptStep s e).1 (hfields.1.trans hp)
      (hfields.2.1.trans hw) (hfields.2.2.1.trans ho)
      (hfields.2.2.2.trans hh)
      (fun e' he' => hall e' (List.mem_cons_of_mem e he'))
      (by rw [countTuple, hqe]; exact hq)

/-- Replay dispatches one event per queued entry, so the number of
replayed events bearing a tuple equals its queued count. -/
theorem replay_count (queue : List QueuedMessage) (m : RawMessage) :
    (replayQueuedMessages queue).countP
      (fun ev => match ev.data with
        | .obj me => sameTuple me m
        | _ => false) = countTuple queue m := by
  unfold replayQueuedMessages countTuple
  rw [List.countP_map]
  rfl

/-- C5: delivering the same (kind, property, correlationId) tuple to
the child N ≥ 1 times before its handshake completes leaves exactly one
queued entry for that tuple, and the post-handshake replay dispatches
exactly one message bearing that tuple. -/
theorem queue_dedup_idempotent (st : BridgeModelState) (m : RawMessage)
    (es : List MessageEvent)
    (hhs : st.handshakeComplete = false)
    (hq : countTuple st.messageQueue m = 0)
    (hne : es ≠ [])
    (hall : ∀ e ∈ es, tupleDelivery st m e) :
    countTuple (interceptFold st es).messageQueue m = 1 ∧
      (replayQueuedMessages (interceptFold st es).messageQueue).countP
        (fun ev => match ev.data with
          | .obj me => sameTuple me m
          | _ => false) = 1 := by
  obtain ⟨e, rest, rfl⟩ := List.exists_cons_of_ne_nil hne
  have h1 : countTuple ((interceptStep st e).1).messageQueue m = 1 :=
    interceptStep_enqueue st m e hhs (hall e (List.mem_cons_self e rest)) hq
  have hfields := interceptStep_fields st e
  have hstep : interceptFold st (e :: rest)
      = interceptFold (interceptStep st e).1 rest := by
    simp [interceptFold]
  have hmain : countTuple (interceptFold st (e :: rest)).messageQueue m
      = 1 := by
    rw [hstep]
    exact interceptFold_keeps st m rest (interceptStep st e).1
      hfields.1 hfields.2.1 hfields.2.2.1 (hfields.2.2.2.trans hhs)
      (fun e' he' => hall e' (List.mem_cons_of_mem e he')) h1
  exact ⟨hmain, by rw [replay_count]; exact hmain⟩

/-- The raw `call` record delivered repeatedly in the C5 witness. -/
def mcallW : RawMessage :=
  { RawMessage.empty with bridge := some "call", property := some "work" }

/-- Witness for C5: the same call tuple delivered three times yields
one queued entry and one replayed message. -/
theorem queue_dedup_idempotent_witness :
    countTuple
        (interceptFold mstW [untaggedCall, untaggedCall, untaggedCall]
          ).messageQueue mcallW = 1 ∧
      (replayQueuedMessages
        (interceptFold mstW [untaggedCall, untaggedCall, untaggedCall]
          ).messageQueue).countP
        (fun ev => match ev.data with
          | .obj me => sameTuple me mcallW
          | _ => false) = 1 := by
  have hd : tupleDelivery mstW mcallW untaggedCall :=
    ⟨mcallW, rfl, by decide, Or.inl rfl, by decide, by decide⟩
  exact queue_dedup_idempotent mstW mcallW
    [untaggedCall, untaggedCall, untaggedCall]
    rfl (by decide) (by simp)
    (by
      intro e he
      simp only [List.mem_cons, List.not_mem_nil, or_false] at he
      rcases he with h | h | h <;> (subst h; exact hd))

/-- Replacing the entry for a key in place does not change how many
entries hold that key. -/
theorem countKey_map_replace (reg : Registry) (w : Nat)
    (info : BridgeInstanceInfo) :
    countKey (reg.map (fun p => if p.1 == w then (w, info) else p)) w
      = countKey reg w := by
  induction reg with
  | nil => rfl
  | cons p t ih =>
    by_cases h : p.1 = w
    · simp [countKey, List.countP_cons, h] at ih ⊢
      omega
    · simp [countKey, List.countP_cons, h] at ih ⊢
      omega

/-- When some entry holds the key, in-place replacement makes the
lookup return the new info. -/
theorem lookup_map_replace (reg : Registry) (w : Nat)
    (info : BridgeInstanceInfo)
    (h : reg.any (fun p => p.1 == w) = true) :
    lookupInstance (reg.map (fun p => if p.1 == w then (w, info) else p)) w
      = some info := by
  induction reg with
  | nil => simp at h
  | cons p t ih =>
    by_cases hp : p.1 = w
    · simp [lookupInstance, List.find?_cons, hp]
    · have ht : t.any (fun q => q.1 == w) = true := by
        simp [List.any_cons, hp] at h
        simpa using h
      have := ih ht
      simpa [lookupInstance, List.find?_cons, hp] using this

/-- An entry found by lookup certifies a matching key in the list. -/
theorem any_of_lookup (reg : Registry) (w : Nat)
    (old : BridgeInstanceInfo) (h : lookupInstance reg w = some old) :
    reg.any (fun p => p.1 == w) = true := by
  unfold lookupInstance at h
  cases hf : reg.find? (fun p => p.1 == w) with
  | none => rw [hf] at h; simp at h
  | some pr =>
    have hpr := List.find?_some hf
    exact List.any_eq_true.2 ⟨pr, List.mem_of_find?_eq_some hf, hpr⟩

/-- C6: registering a session for an identity that already holds one
reports the teardown of the prior entry's container exactly when that
container is attached, and overwrites the mapping: afterwards exactly
one registry entry exists for the identity and it holds the new info.
The teardown flag is computed from the registry before the overwrite. -/
theorem register_evicts_prior (reg : Registry) (w : Nat)
    (old info : BridgeInstanceInfo)
    (hold : lookupInstance reg w = some old)
    (hnd : countKey reg w ≤ 1) :
    lookupInstance (registerInstance reg w info).1 w = some info ∧
      countKey (registerInstance reg w info).1 w = 1 ∧
      (registerInstance reg w info).2 =
        (match old.frame with
          | some f => f.hasParentNode
          | none => false) := by
  have hany : reg.any (fun p => p.1 == w) = true := any_of_lookup reg w old hold
  have hone : countKey reg w = 1 := by
    have hpos : 0 < countKey reg w := by
      obtain ⟨pr, hmem, hpr⟩ := List.any_eq_true.1 hany
      exact List.countP_pos_iff.2 ⟨pr, hmem, hpr⟩
    omega
  have hreg : (registerInstance reg w info).1
      = reg.map (fun p => if p.1 == w then (w, info) else p) := by
    simp [registerInstance, hany]
  refine ⟨?_, ?_, ?_⟩
  · rw [hreg]
    exact lookup_map_replace reg w info hany
  · rw [hreg, countKey_map_replace]
    exact hone
  · simp [registerInstance, hold]

/-- The new info stored for the C6 witness. -/
def infoB : BridgeInstanceInfo :=
  { childOrigin := "https://other.example",
    parentOrigin := some "https://parent.example",
    frame := some { hasParentNode := false, conn := .connected } }

/-- Witness for C6: overwriting the single entry of `regW` stores the
new info, keeps exactly one entry, and reports the prior container's
teardown. -/
theorem register_evicts_prior_witness :
    lookupInstance (registerInstance regW 1 infoB).1 1 = some infoB ∧
      countKey (registerInstance regW 1 infoB).1 1 = 1 ∧
      (registerInstance regW 1 infoB).2 =
        (match ({ childOrigin := "https://child.example",
                  parentOrigin := some "https://parent.example",
                  frame := some { hasParentNode := true,
                                  conn := .connected } } :
            BridgeInstanceInfo).frame with
          | some f => f.hasParentNode
          | none => false) :=
  register_evicts_prior regW 1
    { childOrigin := "https://child.example",
      parentOrigin := some "https://parent.example",
      frame := some { hasParentNode := true, conn := .connected } }
    infoB (by decide) (by decide)

/-- A `call` or `request` record from the verified parent origin with
the protocol tag passes the Validator. -/
theorem sanitize_child_ok (st : ChildState) (e : MessageEvent)
    (m : RawMessage) (hd : e.data = .obj m)
    (ho : e.origin = st.parentOrigin) (ht : m.type = some MESSAGE_TYPE)
    (hb : m.bridge = some "call" ∨ m.bridge = some "request") :
    sanitizeMessage e (some st.parentOrigin) = true := by
  rcases hb with hb | hb <;>
    simp [sanitizeMessage, ho, sanitizeData, hd, hb, ht, validBridgeTypes]

/-- A value-request from the parent naming `toString`: no entry of
that name exists in the shared model, but the plain model object
inherits it from `Object.prototype`. -/
def protoRequest : MessageEvent :=
  { origin := "https://parent.example", source := some 0,
    data := .obj { RawMessage.empty with
      bridge := some "request", type := some MESSAGE_TYPE,
      property := some "toString", uid := some 6 } }

/-- An invoke from the parent naming the inherited `toString`. -/
def protoCall : MessageEvent :=
  { origin := "https://parent.example", source := some 0,
    data := .obj { RawMessage.empty with
      bridge := some "call", type := some MESSAGE_TYPE,
      property := some "toString", data := some (.vNat 1) } }

/-- Counterexample to C7: `toString` is absent from the shared model,
yet the value-request is answered with the inherited builtin's result
`"[object Object]"` — not the explicit absent value — and the invoke
of `toString` dispatches to the inherited callable instead of being
silently ignored. -/
theorem missing_target_counterexample :
    modelLookup cstW.model "toString" = none ∧
      (cstW.handleMessage protoRequest).sent =
        [{ target := 0,
           message := { RawMessage.empty with
             bridge := some "reply", type := some MESSAGE_TYPE,
             uid := some 6,
             value := some (.vStr "[object Object]") },
           targetOrigin := "https://parent.example" }] ∧
      Val.vStr "[object Object]" ≠ Val.vUndefined ∧
      (cstW.handleMessage protoCall).invoked = [("toString", .vNat 1)] := by
  decide

/-- C7 (amended): a value-request from the verified parent bearing a
truthy property and correlation id whose name exists neither as an own
entry of the shared model nor as a member inherited from
`Object.prototype` is answered — never raised on — with a value-reply
to the original sender and origin, carrying the same correlation id
and the explicit absent value; an invoke is silently ignored, with no
reply, no invocation and no error, when the name resolves to no
callable anywhere on the chain (absent everywhere, or a non-callable
entry).  Names inherited from the prototype, such as `toString`, are
found by both paths instead. -/
theorem missing_target_amended :
    (∀ (st : ChildState) (e : MessageEvent) (m : RawMessage) (p : String)
        (u s : Nat),
      e.data = .obj m → e.origin = st.parentOrigin →
      m.type = some MESSAGE_TYPE → m.bridge = some "request" →
      m.property = some p → p ≠ "" → m.uid = some u → u ≠ 0 →
      e.source = some s → jsLookup st.model p = none →
      st.handleMessage e =
        { invoked := [],
          sent := [{ target := s,
                     message := { RawMessage.empty with
                       bridge := some "reply",
                       type := some MESSAGE_TYPE,
                       uid := some u, value := some .vUndefined },
                     targetOrigin := e.origin }],
          raised := false }) ∧
    (∀ (st : ChildState) (e : MessageEvent) (m : RawMessage),
      e.data = .obj m → e.origin = st.parentOrigin →
      m.type = some MESSAGE_TYPE → m.bridge = some "call" →
      (∀ p : String, m.property = some p →
        jsLookup st.model p = none ∨
          ∃ v : Val, jsLookup st.model p = some (.data v)) →
      st.handleMessage e = ChildEffects.none) := by
  constructor
  · intro st e m p u s hd ho ht hb hp hpt hu hut hsrc habs
    have hsan := sanitize_child_ok st e m hd ho ht (Or.inr hb)
    have hres : resolveValue st.model p = some .vUndefined := by
      simp [resolveValue, habs]
    simp [ChildState.handleMessage, hsan, hd, hb, hp, hu, hsrc,
      truthyNat, truthyStr, hpt, hut, hres]
  · intro st e m hd ho ht hb hmiss
    have hsan := sanitize_child_ok st e m hd ho ht (Or.inl hb)
    cases hp : m.property with
    | none =>
      simp [ChildState.handleMessage, hsan, hd, hb, hp, ChildEffects.none]
    | some p =>
      rcases hmiss p hp with habs | ⟨v, hdata⟩
      · simp [ChildState.handleMessage, hsan, hd, hb, hp, habs,
          ChildEffects.none]
      · simp [ChildState.handleMessage, hsan, hd, hb, hp, hdata,
          ChildEffects.none]

/-- A value-request from the parent for a name absent from both the
shared model and the prototype. -/
def missingRequest : MessageEvent :=
  { origin := "https://parent.example", source := some 0,
    data := .obj { RawMessage.empty with
      bridge := some "request", type := some MESSAGE_TYPE,
      property := some "absent", uid := some 4 } }

/-- An invoke from the parent naming a non-callable own model entry. -/
def dataCall : MessageEvent :=
  { origin := "https://parent.example", source := some 0,
    data := .obj { RawMessage.empty with
      bridge := some "call", type := some MESSAGE_TYPE,
      property := some "answer", data := some (.vNat 1) } }

/-- Witness for the amended C7 at concrete inputs. -/
theorem missing_target_amended_witness :
    cstW.handleMessage missingRequest =
      { invoked := [],
        sent := [{ target := 0,
                   message := { RawMessage.empty with
                     bridge := some "reply", type := some MESSAGE_TYPE,
                     uid := some 4, value := some .vUndefined },
                   targetOrigin := missingRequest.origin }],
        raised := false } ∧
      cstW.handleMessage dataCall = ChildEffects.none :=
  ⟨missing_target_amended.1 cstW missingRequest
      { RawMessage.empty with
        bridge := some "request", type := some MESSAGE_TYPE,
        property := some "absent", uid := some 4 }
      "absent" 4 0 rfl rfl rfl rfl rfl (by decide) rfl (by decide) rfl
      (by decide),
    missing_target_amended.2 cstW dataCall
      { RawMessage.empty with
        bridge := some "call", type := some MESSAGE_TYPE,
        property := some "answer", data := some (.vNat 1) }
      rfl rfl rfl rfl
      (by
        intro p hp
        have : p = "answer" := by
          injection hp with h
          exact h.symm
        subst this
        exact Or.inr ⟨.vNat 42, by decide⟩)⟩

/-- The sender check of the handshake `reply` listener, spelled out:
our embedded child, or a sender registered with a counterpart origin
equal to the expected child origin. -/
theorem replySenderOk_iff (reg : Registry) (st : ParentHSState)
    (e : MessageEvent) :
    replySenderOk reg st e = true ↔
      ((e.source == some st.child ||
          e.source == st.frameContentWindow) = true ∨
        ∃ info : BridgeInstanceInfo, getInstanceInfo reg e = some info ∧
          info.childOrigin = st.childOrigin) := by
  unfold replySenderOk
  cases hgi : getInstanceInfo reg e with
  | none => simp [hgi]
  | some info => simp [hgi]

/-- The `reply` listener resolves exactly on Validator-accepted
offer-ack messages whose sender passes the identity check. -/
theorem replyStep_resolved_iff (reg : Registry) (st : ParentHSState)
    (e : MessageEvent) :
    (replyStep reg st e).1 = .resolved ↔
      (sanitizeMessage e none = true ∧ replySenderOk reg st e = true ∧
        e.data.bridgeOf = some "handshake-reply") := by
  unfold replyStep
  by_cases h1 : sanitizeMessage e none = true
  · by_cases h2 : replySenderOk reg st e = true
    · by_cases h3 : e.data.bridgeOf = some "handshake-reply"
      · simp [h1, h2, h3]
      · simp [h1, h2, h3]
    · simp [h1, h2]
  · simp [h1]

/-- A registered impostor window: identity 2, not the embedded child,
but carrying the expected child origin in the registry. -/
def regImpostor : Registry :=
  [(2, { childOrigin := "https://child.example", parentOrigin := none,
         frame := none })]

/-- A well-formed offer-ack sent by window 2, which is not the
embedded counterpart (`hstW.child = 1`). -/
def impostorAck : MessageEvent :=
  { origin := "https://child.example", source := some 2,
    data := .obj { RawMessage.empty with
      bridge := some "handshake-reply", type := some MESSAGE_TYPE } }

/-- Counterexample to C8: the reply listener resolves on an offer-ack
whose sender identity differs from the embedded counterpart's handle,
because the sender holds a registry entry recording the expected child
origin. -/
theorem reply_listener_counterexample :
    (impostorAck.source == some hstW.child ||
        impostorAck.source == hstW.frameContentWindow) = false ∧
      (replyStep regImpostor hstW impostorAck).1 = .resolved := by
  decide

/-- C8 (amended): during the host handshake the reply listener accepts
an inbound message exactly when the Validator passes it under the
accept-any-origin filter, its declared kind is offer-ack, and the
sender identity either matches the embedded counterpart's current
handle or holds a Session Registry entry whose recorded counterpart
origin equals the expected child origin; a message from a sender
meeting neither identity condition is ignored without effect. -/
theorem reply_listener_acceptance (reg : Registry) (st : ParentHSState)
    (e : MessageEvent) :
    ((replyStep reg st e).1 = .resolved ↔
      (sanitizeMessage e none = true ∧
        ((e.source == some st.child ||
            e.source == st.frameContentWindow) = true ∨
          ∃ info : BridgeInstanceInfo,
            getInstanceInfo reg e = some info ∧
              info.childOrigin = st.childOrigin) ∧
        e.data.bridgeOf = some "handshake-reply")) ∧
    (replySenderOk reg st e = false →
      replyStep reg st e = (.ignored, reg, HSEffects.none)) := by
  constructor
  · rw [replyStep_resolved_iff]
    rw [replySenderOk_iff]
  · intro h
    by_cases h1 : sanitizeMessage e none = true
    · simp [replyStep, h1, h]
    · simp [replyStep, h1]

/-- Witness for the amended C8 at concrete inputs: the impostor ack is
accepted, and a sender failing both identity checks is ignored. -/
theorem reply_listener_acceptance_witness :
    ((replyStep regImpostor hstW impostorAck).1 = .resolved ↔
      (sanitizeMessage impostorAck none = true ∧
        ((impostorAck.source == some hstW.child ||
            impostorAck.source == hstW.frameContentWindow) = true ∨
          ∃ info : BridgeInstanceInfo,
            getInstanceInfo regImpostor impostorAck = some info ∧
              info.childOrigin = hstW.childOrigin) ∧
        impostorAck.data.bridgeOf = some "handshake-reply")) ∧
      replyStep [] hstW impostorAck = (.ignored, [], HSEffects.none) :=
  ⟨(reply_listener_acceptance regImpostor hstW impostorAck).1,
    (reply_listener_acceptance [] hstW impostorAck).2 (by decide)⟩

/-- A child-side registry entry: no container handle (`frame: null`). -/
def childSideInfo : BridgeInstanceInfo :=
  { childOrigin := "https://child.example",
    parentOrigin := some "https://parent.example", frame := none }

/-- A registry holding only a child-side entry. -/
def regChildSide : Registry := [(5, childSideInfo)]

/-- Counterexample to C9: a child-side entry, which carries no
container handle, survives the sweep unchanged — the sweep does not
treat it as detached. -/
theorem sweep_counterexample :
    cleanupOrphanedInstances regChildSide = regChildSide ∧
      lookupInstance (cleanupOrphanedInstances regChildSide) 5
        = some childSideInfo := by
  decide

/-- C9 (amended): each sweep run removes every entry whose container
handle reports itself detached and every entry whose liveness probe
throws (treated as detached), while retaining every entry whose
container reports connected and every entry that carries no container
handle at all — in particular all child-side registrations. -/
theorem sweep_behaviour (reg : Registry) :
    (∀ (w : Nat) (info : BridgeInstanceInfo) (f : FrameHandle),
      info.frame = some f → f.conn = .disconnected →
      (w, info) ∉ cleanupOrphanedInstances reg) ∧
    (∀ (w : Nat) (info : BridgeInstanceInfo) (f : FrameHandle),
      info.frame = some f → f.conn = .unprobeable →
      (w, info) ∉ cleanupOrphanedInstances reg) ∧
    (∀ (w : Nat) (info : BridgeInstanceInfo), (w, info) ∈ reg →
      info.frame = none → (w, info) ∈ cleanupOrphanedInstances reg) ∧
    (∀ (w : Nat) (info : BridgeInstanceInfo) (f : FrameHandle),
      (w, info) ∈ reg → info.frame = some f → f.conn = .connected →
      (w, info) ∈ cleanupOrphanedInstances reg) := by
  refine ⟨?_, ?_, ?_, ?_⟩
  · intro w info f hf hc hmem
    have := (List.mem_filter.1 hmem).2
    simp [sweepKeeps, hf, hc] at this
  · intro w info f hf hc hmem
    have := (List.mem_filter.1 hmem).2
    simp [sweepKeeps, hf, hc] at this
  · intro w info hmem hf
    exact List.mem_filter.2 ⟨hmem, by simp [sweepKeeps, hf]⟩
  · intro w info f hmem hf hc
    exact List.mem_filter.2 ⟨hmem, by simp [sweepKeeps, hf, hc]⟩

/-- A detached container handle. -/
def detachedInfo : BridgeInstanceInfo :=
  { childOrigin := "https://stale.example", parentOrigin := none,
    frame := some { hasParentNode := false, conn := .disconnected } }

/-- An unprobeable container handle. -/
def unprobeableInfo : BridgeInstanceInfo :=
  { childOrigin := "https://dead.example", parentOrigin := none,
    frame := some { hasParentNode := false, conn := .unprobeable } }

/-- A registry mixing all four liveness situations. -/
def regMixed : Registry :=
  [(1, { childOrigin := "https://child.example",
         parentOrigin := some "https://parent.example",
         frame := some { hasParentNode := true, conn := .connected } }),
   (2, detachedInfo), (3, unprobeableInfo), (5, childSideInfo)]

/-- Witness for the amended C9 at concrete inputs. -/
theorem sweep_behaviour_witness :
    (2, detachedInfo) ∉ cleanupOrphanedInstances regMixed ∧
      (3, unprobeableInfo) ∉ cleanupOrphanedInstances regMixed ∧
      (5, childSideInfo) ∈ cleanupOrphanedInstances regMixed :=
  ⟨(sweep_behaviour regMixed).1 2 detachedInfo
      { hasParentNode := false, conn := .disconnected } rfl rfl,
    (sweep_behaviour regMixed).2.1 3 unprobeableInfo
      { hasParentNode := false, conn := .unprobeable } rfl rfl,
    (sweep_behaviour regMixed).2.2.1 5 childSideInfo (by decide) rfl⟩

/-- C10: a value-request whose `property` is absent or empty, or whose
`correlationId` is absent or zero, produces no effect at all on the
established child session — no value-reply is sent; this cannot drop
well-formed traffic because the correlation-id generator only issues
ids greater than or equal to one. -/
theorem falsy_request_dropped :
    (∀ (st : ChildState) (e : MessageEvent) (m : RawMessage),
      e.data = .obj m → e.origin = st.parentOrigin →
      m.type = some MESSAGE_TYPE → m.bridge = some "request" →
      (truthyNat m.uid = false ∨ truthyStr m.property = false) →
      st.handleMessage e = ChildEffects.none) ∧
    (∀ c : Nat, 1 ≤ (generateMessageId c).2) := by
  constructor
  · intro st e m hd ho ht hb hfalsy
    have hsan := sanitize_child_ok st e m hd ho ht (Or.inr hb)
    rcases hfalsy with hf | hf <;>
      simp [ChildState.handleMessage, hsan, hd, hb, hf, ChildEffects.none]
  · intro c
    simp [generateMessageId]

/-- A value-request bearing the out-of-range correlation id zero. -/
def zeroUidRequest : MessageEvent :=
  { origin := "https://parent.example", source := some 0,
    data := .obj { RawMessage.empty with
      bridge := some "request", type := some MESSAGE_TYPE,
      property := some "answer", uid := some 0 } }

/-- Witness for C10 at concrete inputs. -/
theorem falsy_request_dropped_witness :
    cstW.handleMessage zeroUidRequest = ChildEffects.none ∧
      1 ≤ (generateMessageId 0).2 :=
  ⟨falsy_request_dropped.1 cstW zeroUidRequest
      { RawMessage.empty with
        bridge := some "request", type := some MESSAGE_TYPE,
        property := some "answer", uid := some 0 }
      rfl rfl rfl rfl (Or.inl (by decide)),
    falsy_request_dropped.2 0⟩

end IframeBridge
